import Mathlib

/-!
Shallow embedding of the liboptimizexx parameter-space grid library
(composite grid data structure, iteration-state/memento traversal engine,
iterator strategies, strategy factory, builder and thread-pool dispatch),
together with theorems settling the specification claims.

Conventions of the embedding:
* C++ object identity (pointer values) is modelled by a natural-number
  address stored in each object (`ident` / `addr` fields); distinct
  allocations carry distinct addresses.
* `std::list` / `std::vector` containers become Lean `List`s; an STL
  iterator into a container becomes an index; `begin()` is index `0`,
  `end()` is the length of the list.
* Numeric coordinates (`Ctype = double` in the tests) are modelled by `Rat`;
  every concrete value appearing in the claims (multiples of 0.5 and 1) is
  exactly representable in binary floating point and all operations on them
  are exact, so rational arithmetic agrees with the C++ double arithmetic
  on these inputs.
* Fallible operations (dereferencing an invalid iterator, calling an
  `OPTIMIZE_illegal` member on the wrong component variant) return `Option`,
  with `none` marking the C++ undefined behaviour / abort.
* Loops of the source that have no evident termination measure take an
  explicit fuel argument; `none` on fuel exhaustion distinguishes a loop
  that was still running from a result.
-/

namespace optimize

/-! ## Composite grid data structure

`GridComponent` (src/unnamed/part_000, gridcomponent.h), `Node`
(src/unnamed/part_005, node.h) and `Grid` (src/grid.h).  A component is
either a leaf `Node` carrying a coordinate vector, or a composite `Grid`
carrying an ordered child list.  The `Mcomputed` member of the C++ base
class `GridComponent` is carried by both constructors. -/

inductive GridComponent : Type where
  | node (ident : Nat) (Mcoordinates : List Rat) (Mcomputed : Bool)
  | grid (ident : Nat) (Mcomputed : Bool) (children : List GridComponent)

/-- Address / identity of the component object. -/
def GridComponent.identOf : GridComponent → Nat
  | .node i _ _ => i
  | .grid i _ _ => i

/-- Embeds `getComponentType() == GridComponent::Leaf`:
`Node::getComponentType` returns `Leaf` (part_005 line 93), and
`Grid::getComponentType` returns `Composite` (grid.h:139). -/
def GridComponent.isLeaf : GridComponent → Bool
  | .node _ _ _ => true
  | .grid _ _ _ => false

/-- Embeds `isComputed()`: both `Node::isComputed` (part_005 line 86) and
`Grid::isComputed` (grid.h:127) return the `Mcomputed` member. -/
def GridComponent.isComputed : GridComponent → Bool
  | .node _ _ m => m
  | .grid _ m _ => m

/-- Embeds the child-range accessors `begin()` / `end()` (grid.h:144-146).
On a `Node` these members are not overridden and the base-class versions
signal `OPTIMIZE_illegal` (part_000 lines 141-143), modelled as `none`. -/
def GridComponent.childrenOf : GridComponent → Option (List GridComponent)
  | .node _ _ _ => none
  | .grid _ _ cs => some cs

/-- Embeds `getCoordinates()`: overridden for `Node` (part_005 line 98);
the base-class version used by `Grid` signals `OPTIMIZE_illegal`
(part_000 lines 194-199). -/
def GridComponent.getCoordinates : GridComponent → Option (List Rat)
  | .node _ cs _ => some cs
  | .grid _ _ _ => none

/-! ## The computed-flag cache of a Grid (claim C2)

`Grid::setComputed` (grid.h:241-250) scans the children, and on the first
child whose `isComputed()` is false sets `Mcomputed = false` and breaks;
after the loop it assigns `Mcomputed = true` unconditionally. -/

/-- Embeds the `for` loop of `Grid::setComputed` (grid.h:245-248): the value
of `Mcomputed` after the loop, given the child list and the value before. -/
def setComputedScan : List GridComponent → Bool → Bool
  | [], m => m
  | c :: rest, m => if ¬ c.isComputed then false else setComputedScan rest m

/-- Embeds `Grid::setComputed` (grid.h:241-250): runs the scan loop and then
executes `Tbase::Mcomputed = true;` (grid.h:249), which overwrites whatever
the loop computed.  Returns the final value of `Mcomputed`. -/
def Grid.setComputed (children : List GridComponent) (Mcomputed : Bool) :
    Bool :=
  let _afterScan := setComputedScan children Mcomputed
  true

/-! ## Mutable object state touched by Grid::add (claim C8) -/

/-- Per-object mutable state of a `GridComponent` as touched by `Grid::add`:
the object address, the `Mparent` back-pointer (part_000 line 168) and the
`Mcomputed` flag (part_000 line 173). -/
structure ComponentObj : Type where
  addr : Nat
  Mparent : Option Nat
  Mcomputed : Bool
deriving DecidableEq, Repr

/-- Mutable state of a `Grid` object: its own component state plus the
ordered child-pointer list `Mchildren` (grid.h:164). -/
structure GridObj : Type where
  self : ComponentObj
  Mchildren : List ComponentObj
deriving DecidableEq, Repr

/-- Embeds `Grid::add` (grid.h:199-209): `find` compares the stored child
pointers with the argument pointer (address equality); when absent, the
component gets its parent set to this grid (`setParent(this)`), is appended
by `push_back`, and `Tbase::Mcomputed = false` invalidates the cache.
Returns the updated grid object and the updated argument object. -/
def Grid.add (g : GridObj) (c : ComponentObj) : GridObj × ComponentObj :=
  if g.Mchildren.any (fun x => x.addr == c.addr) then
    (g, c)
  else
    let c2 : ComponentObj := { c with Mparent := some g.self.addr }
    ({ self := { g.self with Mcomputed := false },
       Mchildren := g.Mchildren ++ [c2] }, c2)

/-! ## Thread pool dispatch (claim C7)

`GridSearch::execute` (src/globalalgorithms/gridsearch.h:146-183) enqueues
every leaf into the pool fifo, spins on
`num_tasks != pool->getCompletedTasksCount()` (gridsearch.h:179) and then
runs `delete pool` (gridsearch.h:181) before returning.
`ThreadPool::getCompletedTasksCount` (src/parameter.h, threadpool section)
returns `Fifo::getNumPoppedTasks`, i.e. the counter `MnumPopped` that
`Fifo::waitAndPopTask` increments at the moment a worker pops a task —
before the worker invokes the visitor on it.  The deleted pool runs
`~ThreadPool`, which sets `Mactive = false`, calls
`Mworkers.interrupt_all()` and then `Mworkers.join_all()`, blocking until
every worker thread has terminated.  The model below is a small
interleaving semantics of exactly that synchronisation structure: the
counter moves at the pop event, and the join of the destructor is what ties
the return of `execute` to the completion of the visitor calls. -/

/-- Global synchronisation state of one `execute` call with its pool:
`queued` tasks sit in the fifo, `running` tasks have been popped by a worker
whose visitor call has not yet returned, `finished` visitor calls have
returned. -/
structure PoolState : Type where
  queued : Nat
  running : Nat
  finished : Nat
deriving DecidableEq, Repr

/-- The `MnumPopped` counter of the fifo: incremented in
`Fifo::waitAndPopTask` when the task is popped, hence it counts popped
tasks, running and finished alike. -/
def PoolState.numPopped (st : PoolState) : Nat := st.running + st.finished

/-- Interleaving steps of the workers: popping a task from the fifo
(`Fifo::waitAndPopTask`, which increments `MnumPopped`), and the return of a
visitor invocation on a previously popped task (`ThreadHandle::operator()`).
The two are separate events: the counter moves at the first one. -/
inductive PoolStep : PoolState → PoolState → Prop where
  | pop (q r f : Nat) : PoolStep ⟨q + 1, r, f⟩ ⟨q, r + 1, f⟩
  | finish (q r f : Nat) : PoolStep ⟨q, r + 1, f⟩ ⟨q, r, f + 1⟩

/-- The spin-exit condition of `GridSearch::execute` (gridsearch.h:179):
the loop `while(num_tasks != pool->getCompletedTasksCount()) { }` exits
exactly when the popped-task counter equals the number of enqueued tasks.
This alone is not the return of `execute`: the `delete pool` of
gridsearch.h:181 still runs before the function returns. -/
def executeSpinExits (numTasks : Nat) (st : PoolState) : Prop :=
  st.numPopped = numTasks

/-- Completion of the `delete pool` of gridsearch.h:181: `~ThreadPool`
(src/parameter.h, threadpool section) sets `Mactive = false`, calls
`Mworkers.interrupt_all()` and then `Mworkers.join_all()`, which blocks
until every worker thread has terminated.  A worker that has popped a task
invokes the visitor unconditionally before re-testing its loop guard
(`ThreadHandle::operator()`): there is no boost interruption point between
the pop and the invocation, and the visitor is a pure in-memory computation
(spec section 7), so a worker can only terminate — and `join_all` only
return — once no popped task is still running. -/
def destructorJoinComplete (st : PoolState) : Prop :=
  st.running = 0

/-- The return of `GridSearch::execute` with a non-zero worker count
(gridsearch.h:179-182): the spin loop has exited and the pool destructor
has joined every worker thread. -/
def executeReturns (numTasks : Nat) (st : PoolState) : Prop :=
  executeSpinExits numTasks st ∧ destructorJoinComplete st

/-- The property the claim asserts at the moment `execute` returns: every
enqueued leaf has had its visitor call run to completion. -/
def allVisitorCallsCompleted (numTasks : Nat) (st : PoolState) : Prop :=
  st.finished = numTasks

/-! ## The distance utility (claims C5, C9)

`distance` (src/iterator.h:104-128) is a function template over any
composite-iterator type; the embedding is likewise generic over the state
type `α`, with the member functions the template invokes gathered in a
structure.  The C++ function takes `iter_first` by reference and aliases it
(`CcompositeIterator& iter(iter_first);`), advancing it in place; the
embedding threads that mutation explicitly and returns the final state of
`iter_first` next to the count. -/

/-- Operations of a composite iterator as used by the `distance` and
`advance` templates of src/iterator.h: `next()`, `first()`, `isDone()` and
`operator!=`, functionalised over the iterator state `α`. -/
structure CompositeIteratorOps (α : Type) : Type where
  next : α → α
  first : α → α
  isDone : α → Bool
  neq : α → α → Bool

/-- Embeds the first loop of `distance` (src/iterator.h:111-115):
`while (iter != iter_last && !iter.isDone()) { ++retval; iter.next(); }`.
The fuel bounds the number of iterations; `none` means the loop was still
running when the fuel ran out. -/
def distanceLoop1 (ops : CompositeIteratorOps α) :
    Nat → α → α → Nat → Option (Nat × α)
  | 0, _, _, _ => none
  | fuel + 1, iter, last, retval =>
    if ops.neq iter last && !(ops.isDone iter) then
      distanceLoop1 ops fuel (ops.next iter) last (retval + 1)
    else
      some (retval, iter)

/-- Embeds the second loop of `distance` (src/iterator.h:121-125):
`while (iter != iter_last) { ++retval; iter.next(); }` — note there is no
`isDone` guard in the source here. -/
def distanceLoop2 (ops : CompositeIteratorOps α) :
    Nat → α → α → Nat → Option (Nat × α)
  | 0, _, _, _ => none
  | fuel + 1, iter, last, retval =>
    if ops.neq iter last then
      distanceLoop2 ops fuel (ops.next iter) last (retval + 1)
    else
      some (retval, iter)

/-- Embeds `distance` (src/iterator.h:104-128).  The first loop counts
forward steps until `iter_last` is met or the iterator is done; if
`iter_last` was not met, the counter is reset, the iterator is rewound with
`iter.first()` and the second loop recounts from the start.  The returned
pair is `(retval, iter)` where `iter` is the final state of the by-reference
argument `iter_first`. -/
def distance (ops : CompositeIteratorOps α) (fuel : Nat)
    (iter_first iter_last : α) : Option (Nat × α) :=
  (distanceLoop1 ops fuel iter_first iter_last 0).bind fun ri =>
    if ops.neq ri.2 iter_last then
      distanceLoop2 ops fuel (ops.first ri.2) iter_last 0
    else
      some ri

/-! ## Iterator kinds and iteration modes

The enumerations of the iterator subsystem.  `EiteratorType` lists the six
concrete traversal strategies plus the degenerated `NullIter`;
`EiterationMode` selects the memento variant.  (The header declaring these
enumerations is included by src/unnamed/part_000 as `optimizexx/iterator.h`
but is not present under src/; the constants are taken from their uses in
src/grid.h, src/unnamed/part_016 and the iterator strategy sources.) -/

inductive EiteratorType : Type where
  | ForwardIter
  | ForwardNodeIter
  | ForwardGridIter
  | ReverseIter
  | ReverseNodeIter
  | ReverseGridIter
  | NullIter
deriving DecidableEq, Repr

inductive EiterationMode : Type where
  | PreOrder
  | PostOrder
deriving DecidableEq, Repr

/-! ## Iteration states (src/unnamed/part_013, iterationstate.h)

A `ForwardIterationState` holds a (current, end) pair of list iterators into
one child collection; a `ReverseIterationState` holds the analogous pair of
reverse iterators.  Both are modelled as the traversed list plus a current
index: for the reverse state the stored list is the reversed child list, so
that dereferencing (`getIterator()`, which for the reverse state returns
`--Miter.base()`, the forward iterator to the same element) is uniformly
`comps.get? idx`, `isEnd` is `idx = length` and `next` is `idx + 1`. -/

structure IterationState : Type where
  comps : List GridComponent
  idx : Nat

/-- Embeds `isEnd()` of both state variants: `Miter == Mend_iter`. -/
def IterationState.isEnd (s : IterationState) : Bool :=
  s.idx == s.comps.length

/-- Embeds `isBack()` of both state variants:
`{ Titer tmp(Mend_iter); return Miter == --tmp; }`. -/
def IterationState.isBack (s : IterationState) : Bool :=
  s.idx + 1 == s.comps.length

/-- Embeds `next()` of both state variants: `++Miter`. -/
def IterationState.next (s : IterationState) : IterationState :=
  { s with idx := s.idx + 1 }

/-- Dereferences the current iterator of the state
(`*getIterator()`); dereferencing at or past the end of the container is
C++ undefined behaviour, modelled as `none`. -/
def IterationState.deref (s : IterationState) : Option GridComponent :=
  s.comps.get? s.idx

/-- Embeds `ForwardIterationState(comp->begin(), comp->end())` as pushed by
the forward strategies; `begin()` on a leaf is an illegal operation. -/
def forwardStateOf (c : GridComponent) : Option IterationState :=
  c.childrenOf.map fun cs => ⟨cs, 0⟩

/-- Embeds `ReverseIterationState(comp->rbegin(), comp->rend())` as pushed
by the reverse strategies; the reversed child list with index 0 corresponds
to `rbegin()`. -/
def reverseStateOf (c : GridComponent) : Option IterationState :=
  c.childrenOf.map fun cs => ⟨cs.reverse, 0⟩

/-! ## Iteration memento (src/iterator/iterationmemento.h)

The memento keeps a `std::deque` of iteration states.  All query and
mutation operations (`getCurrentIterator`, `next`, `popState`,
`iterationStateIsEnd`) act on the BACK of the deque; `PostIterationMemento::
pushState` inserts at the FRONT (iterationmemento.h:342-347) while
`PreIterationMemento::pushState` inserts at the BACK
(iterationmemento.h:352-357).  The deque is modelled as a list whose HEAD is
the back of the deque, so the pre-order push is `cons` and the post-order
push appends at the far end. -/

structure IterationMemento : Type where
  mode : EiterationMode
  stack : List IterationState

/-- Embeds `pushState`: `push_front` for the post-order memento, `push_back`
for the pre-order memento. -/
def IterationMemento.pushState (m : IterationMemento) (s : IterationState) :
    IterationMemento :=
  match m.mode with
  | .PostOrder => { m with stack := m.stack ++ [s] }
  | .PreOrder => { m with stack := s :: m.stack }

/-- Embeds `IterationMemento::next()`: `MstateStack.back()->next()`.  All
call sites in the strategies invoke it only with a nonempty stack; the empty
case (undefined behaviour in C++) leaves the memento unchanged and is never
reached in the verified paths. -/
def IterationMemento.nextState (m : IterationMemento) : IterationMemento :=
  match m.stack with
  | [] => m
  | f :: rest => { m with stack := f.next :: rest }

/-- Embeds `popState()`: `MstateStack.pop_back()`. -/
def IterationMemento.popState (m : IterationMemento) : IterationMemento :=
  { m with stack := m.stack.tail }

/-- Embeds `empty()`. -/
def IterationMemento.empty (m : IterationMemento) : Bool :=
  m.stack.isEmpty

/-- Embeds `iterationStateIsEnd()`: `MstateStack.back()->isEnd()`; only
called with a nonempty stack. -/
def IterationMemento.iterationStateIsEnd (m : IterationMemento) : Bool :=
  match m.stack with
  | [] => false
  | f :: _ => f.isEnd

/-- Embeds `iterationIsBack()` (iterationmemento.h:308-312):
`1 == MstateStack.size() && MstateStack.back()->isBack()`. -/
def IterationMemento.iterationIsBack (m : IterationMemento) : Bool :=
  m.stack.length == 1 &&
    (match m.stack with
     | [] => false
     | f :: _ => f.isBack)

/-- Embeds `reset()`: `MstateStack.clear()`. -/
def IterationMemento.reset (m : IterationMemento) : IterationMemento :=
  { m with stack := [] }

/-- Dereferences the current iterator of the memento,
`*getCurrentIterator()` = `*(MstateStack.back()->getIterator())`; with an
empty stack `getCurrentIterator` already is undefined behaviour (`none`). -/
def IterationMemento.currentDeref (m : IterationMemento) :
    Option GridComponent :=
  match m.stack with
  | [] => none
  | f :: _ => f.deref

/-! ## Iterator strategies

Unified state record for the concrete strategy classes `ForwardIterator`
(src/iterator/forwarditerator.h), `ForwardNodeIterator`
(src/unnamed/part_010), `ForwardGridIterator` (src/unnamed/part_011),
`ReverseIterator` (src/unnamed/part_012), `ReverseNodeIterator`
(src/iterator/reversenodeiterator.h), `ReverseGridIterator`
(src/iterator/reversegriditerator.h) and `NullIterator`
(src/unnamed/part_014).  The `kind` field records the dynamic C++ class;
the remaining fields are the data members `Mcomponent`, `MisDone` and
`MiterMemento` shared by the traversal strategies.  `NullIterator` stores
only its originator; its `isDone()` is the constant `true` and its
`currentItem()` returns the originator, so for `kind = NullIter` the
`MisDone` and `MiterMemento` fields are unused. -/

structure CompositeIteratorState : Type where
  kind : EiteratorType
  Mcomponent : GridComponent
  MisDone : Bool
  MiterMemento : IterationMemento

/-- Embeds `isDone()`: the traversal strategies return `MisDone`; the
`NullIterator` override returns `true` (part_014 line 76). -/
def CompositeIteratorState.isDone (s : CompositeIteratorState) : Bool :=
  match s.kind with
  | .NullIter => true
  | _ => s.MisDone

/-- Embeds `currentItem()`: the traversal strategies return
`*MiterMemento->getCurrentIterator()`; the `NullIterator` override returns
its originator `Mcomp_ptr` (part_014 line 83). -/
def CompositeIteratorState.currentItem (s : CompositeIteratorState) :
    Option GridComponent :=
  match s.kind with
  | .NullIter => some s.Mcomponent
  | _ => s.MiterMemento.currentDeref

/-- Embeds `IteratorStrategyFactory::makeIteratorStrategy`
(src/unnamed/part_016 lines 104-150): the if-chain selects the strategy
class matching the requested type, each constructed with `MisDone = false`
and the fresh memento of the requested mode
(`makeIterationMemento`, part_016 lines 153-167); the final `else` branch —
any type not matching the six recognised strategies — constructs a
`NullIterator` on the component. -/
def IteratorStrategyFactory.makeIteratorStrategy (iter_type : EiteratorType)
    (iter_mode : EiterationMode) (grid_comp : GridComponent) :
    CompositeIteratorState :=
  match iter_type with
  | .ForwardIter =>
    ⟨.ForwardIter, grid_comp, false, ⟨iter_mode, []⟩⟩
  | .ForwardNodeIter =>
    ⟨.ForwardNodeIter, grid_comp, false, ⟨iter_mode, []⟩⟩
  | .ForwardGridIter =>
    ⟨.ForwardGridIter, grid_comp, false, ⟨iter_mode, []⟩⟩
  | .ReverseIter =>
    ⟨.ReverseIter, grid_comp, false, ⟨iter_mode, []⟩⟩
  | .ReverseNodeIter =>
    ⟨.ReverseNodeIter, grid_comp, false, ⟨iter_mode, []⟩⟩
  | .ReverseGridIter =>
    ⟨.ReverseGridIter, grid_comp, false, ⟨iter_mode, []⟩⟩
  | .NullIter =>
    ⟨.NullIter, grid_comp, false, ⟨iter_mode, []⟩⟩

/-- Embeds the factory method `createIterator`: `Grid::createIterator`
(grid.h:253-262) forwards the requested type to the strategy factory;
the base-class default used by `Node` (part_000 lines 226-235) requests
`NullIter` regardless of the argument.  The `Iterator` facade returned in
C++ wraps the strategy by value and delegates `first/next/back/isDone/
currentItem` to it (modelled from the spec for the missing facade header,
§4.4), so the facade is identified with its strategy state here. -/
def GridComponent.createIterator (c : GridComponent)
    (iter_type : EiteratorType) (iter_mode : EiterationMode) :
    CompositeIteratorState :=
  match c with
  | .grid _ _ _ => IteratorStrategyFactory.makeIteratorStrategy
      iter_type iter_mode c
  | .node _ _ _ => IteratorStrategyFactory.makeIteratorStrategy
      .NullIter iter_mode c

/-- Embeds the probe `(*getCurrentIterator())->createIterator(k).isDone()`
appearing at the top of every strategy `next()`; the C++ call uses the
default iteration mode `PostOrder` (grid.h:108-109).  For a `Node` the probe
iterator is a `NullIterator` (done); for a `Grid` it is a freshly
constructed strategy whose `MisDone` is `false`. -/
def probeIsDone (c : GridComponent) (k : EiteratorType) : Bool :=
  (c.createIterator k .PostOrder).isDone

/-- Worker of `popAdvanceLoop`: the back state is held separately so the
recursion is structural over the remaining stack. -/
def popAdvanceGo : IterationState → List IterationState → List IterationState
  | f, rest =>
    if f.isEnd then
      match rest with
      | [] => []
      | g :: rs => popAdvanceGo g.next rs
    else
      f :: rest

/-- Embeds the pop-and-advance loop shared by every strategy `next()`
(e.g. forwarditerator.h:216-220):
`while (!empty && iterationStateIsEnd) { popState; if (!empty) next; }`,
acting on the state stack. -/
def popAdvanceLoop : List IterationState → List IterationState
  | [] => []
  | f :: rest => popAdvanceGo f rest

/-- Core of the forward strategies `next()` (forwarditerator.h:201-223 and
the identical first halves of part_010 lines 162-187 and part_011): if the
probed current item has a traversal of its own, push a fresh
`ForwardIterationState` over its children; otherwise advance the back state
and run the pop-and-advance loop, setting `MisDone` when the stack empties.
The probe kind `k` is the one the respective strategy class requests. -/
def forwardStepCore (k : EiteratorType) (s : CompositeIteratorState) :
    Option CompositeIteratorState :=
  match s.MiterMemento.currentDeref with
  | none => none
  | some cur =>
    if ¬ probeIsDone cur k then
      (forwardStateOf cur).map fun st =>
        { s with MiterMemento := s.MiterMemento.pushState st }
    else
      let m1 := s.MiterMemento.nextState
      let m2 : IterationMemento := { m1 with stack := popAdvanceLoop m1.stack }
      if m2.empty then
        some { s with MiterMemento := m2, MisDone := true }
      else
        some { s with MiterMemento := m2 }

/-- Core of the reverse strategies `next()` (part_012 lines 193-215 and the
identical first halves of the reverse node/grid iterators): as the forward
core, but pushing a fresh `ReverseIterationState` over
`rbegin()/rend()`. -/
def reverseStepCore (k : EiteratorType) (s : CompositeIteratorState) :
    Option CompositeIteratorState :=
  match s.MiterMemento.currentDeref with
  | none => none
  | some cur =>
    if ¬ probeIsDone cur k then
      (reverseStateOf cur).map fun st =>
        { s with MiterMemento := s.MiterMemento.pushState st }
    else
      let m1 := s.MiterMemento.nextState
      let m2 : IterationMemento := { m1 with stack := popAdvanceLoop m1.stack }
      if m2.empty then
        some { s with MiterMemento := m2, MisDone := true }
      else
        some { s with MiterMemento := m2 }

/-- Worker of `filterSkipLoop`: scans the list suffix that starts at the
index of the back state for the first component matching the wanted kind,
returning its index.  Running off the end means the C++ loop dereferences
the end iterator — undefined behaviour, `none`. -/
def filterScan (wantLeaf : Bool) : List GridComponent → Nat → Option Nat
  | [], _ => none
  | c :: rest, i =>
    if c.isLeaf == wantLeaf then some i
    else filterScan wantLeaf rest (i + 1)

/-- Embeds the component-kind filter loop that closes the `next()` of the
node and grid iterator strategies (part_010 lines 189-194, part_011, and
their reverse twins): `while (!MisDone && currentItem kind mismatch)
{ MiterMemento->next(); }`.  `wantLeaf` is `true` for the node iterators
(skip until `Leaf`) and `false` for the grid iterators (skip until
`Composite`).  Each loop iteration only increments the index of the back
state, so the loop equals a scan of the remaining suffix of that state
container, with dereferencing past the end being C++ undefined behaviour
(`none`). -/
def filterSkipLoop (wantLeaf : Bool) :
    List IterationState → Option (List IterationState)
  | [] => none
  | f :: rest =>
    (filterScan wantLeaf (f.comps.drop f.idx) f.idx).map fun i =>
      { f with idx := i } :: rest

/-- Embeds `ForwardIterator::next` (forwarditerator.h:201-223): the forward
core with probe kind `ForwardIter` and no trailing filter. -/
def ForwardIterator.next (s : CompositeIteratorState) :
    Option CompositeIteratorState :=
  forwardStepCore .ForwardIter s

/-- Embeds `ForwardNodeIterator::next` (part_010 lines 162-195): the forward
core with probe kind `ForwardNodeIter`, followed by the skip-to-`Leaf`
filter loop guarded by `!MisDone`. -/
def ForwardNodeIterator.next (s : CompositeIteratorState) :
    Option CompositeIteratorState :=
  (forwardStepCore .ForwardNodeIter s).bind fun s1 =>
    if s1.MisDone then some s1
    else
      (filterSkipLoop true s1.MiterMemento.stack).map fun st =>
        { s1 with MiterMemento := { s1.MiterMemento with stack := st } }

/-- Embeds `ForwardGridIterator::next` (part_011): the forward core with
probe kind `ForwardGridIter`, followed by the skip-to-`Composite` filter
loop guarded by `!MisDone`. -/
def ForwardGridIterator.next (s : CompositeIteratorState) :
    Option CompositeIteratorState :=
  (forwardStepCore .ForwardGridIter s).bind fun s1 =>
    if s1.MisDone then some s1
    else
      (filterSkipLoop false s1.MiterMemento.stack).map fun st =>
        { s1 with MiterMemento := { s1.MiterMemento with stack := st } }

/-- Embeds `ReverseIterator::next` (part_012 lines 193-215). -/
def ReverseIterator.next (s : CompositeIteratorState) :
    Option CompositeIteratorState :=
  reverseStepCore .ReverseIter s

/-- Embeds `ReverseNodeIterator::next`
(src/iterator/reversenodeiterator.h). -/
def ReverseNodeIterator.next (s : CompositeIteratorState) :
    Option CompositeIteratorState :=
  (reverseStepCore .ReverseNodeIter s).bind fun s1 =>
    if s1.MisDone then some s1
    else
      (filterSkipLoop true s1.MiterMemento.stack).map fun st =>
        { s1 with MiterMemento := { s1.MiterMemento with stack := st } }

/-- Embeds `ReverseGridIterator::next`
(src/iterator/reversegriditerator.h). -/
def ReverseGridIterator.next (s : CompositeIteratorState) :
    Option CompositeIteratorState :=
  (reverseStepCore .ReverseGridIter s).bind fun s1 =>
    if s1.MisDone then some s1
    else
      (filterSkipLoop false s1.MiterMemento.stack).map fun st =>
        { s1 with MiterMemento := { s1.MiterMemento with stack := st } }

/-- Embeds `ForwardIterator::first` (forwarditerator.h:148-163): reset the
memento; if the root has children, clear `MisDone` and push a forward state
over `begin()/end()`, otherwise set `MisDone`.  Calling `begin()` on a leaf
root is an illegal operation (`none`). -/
def ForwardIterator.first (s : CompositeIteratorState) :
    Option CompositeIteratorState :=
  let m := s.MiterMemento.reset
  match s.Mcomponent.childrenOf with
  | none => none
  | some cs =>
    if cs.isEmpty then
      some { s with MisDone := true, MiterMemento := m }
    else
      some { s with MisDone := false,
                    MiterMemento := m.pushState ⟨cs, 0⟩ }

/-- Embeds `ReverseIterator::first` (part_012 lines 140-155): as the forward
variant but testing `rbegin() != rend()` and pushing a reverse state. -/
def ReverseIterator.first (s : CompositeIteratorState) :
    Option CompositeIteratorState :=
  let m := s.MiterMemento.reset
  match s.Mcomponent.childrenOf with
  | none => none
  | some cs =>
    if cs.isEmpty then
      some { s with MisDone := true, MiterMemento := m }
    else
      some { s with MisDone := false,
                    MiterMemento := m.pushState ⟨cs.reverse, 0⟩ }

/-- Embeds the `while (!MisDone && currentItem not of the wanted kind)
{ next(); }` loop closing `ForwardNodeIterator::first` (part_010 lines
130-135), `ReverseNodeIterator::first` and their grid-iterator twins, with
the full strategy `next` passed in as `step`.  The fuel bounds the number of
`next()` calls; `none` on exhaustion. -/
def firstSkipLoop
    (step : CompositeIteratorState → Option CompositeIteratorState)
    (wantLeaf : Bool) :
    Nat → CompositeIteratorState → Option CompositeIteratorState
  | 0, s =>
    if s.MisDone then some s
    else
      match s.MiterMemento.currentDeref with
      | none => none
      | some c => if c.isLeaf == wantLeaf then some s else none
  | fuel + 1, s =>
    if s.MisDone then some s
    else
      match s.MiterMemento.currentDeref with
      | none => none
      | some c =>
        if c.isLeaf == wantLeaf then some s
        else (step s).bind (firstSkipLoop step wantLeaf fuel)

/-- Embeds `ForwardNodeIterator::first` (part_010 lines 119-140): reset,
push the forward state over the root children, then skip forward with full
`next()` calls until the current item is a `Leaf`. -/
def ForwardNodeIterator.first (fuel : Nat) (s : CompositeIteratorState) :
    Option CompositeIteratorState :=
  let m := s.MiterMemento.reset
  match s.Mcomponent.childrenOf with
  | none => none
  | some cs =>
    if cs.isEmpty then
      some { s with MisDone := true, MiterMemento := m }
    else
      firstSkipLoop ForwardNodeIterator.next true fuel
        { s with MisDone := false, MiterMemento := m.pushState ⟨cs, 0⟩ }

/-- Embeds `ReverseNodeIterator::first`
(src/iterator/reversenodeiterator.h): the reverse twin of the node-iterator
`first`. -/
def ReverseNodeIterator.first (fuel : Nat) (s : CompositeIteratorState) :
    Option CompositeIteratorState :=
  let m := s.MiterMemento.reset
  match s.Mcomponent.childrenOf with
  | none => none
  | some cs =>
    if cs.isEmpty then
      some { s with MisDone := true, MiterMemento := m }
    else
      firstSkipLoop ReverseNodeIterator.next true fuel
        { s with MisDone := false,
                 MiterMemento := m.pushState ⟨cs.reverse, 0⟩ }

/-- Embeds `ForwardGridIterator::first` (part_011): reset, push the forward
state over the root children, then one full `next()` call. -/
def ForwardGridIterator.first (s : CompositeIteratorState) :
    Option CompositeIteratorState :=
  let m := s.MiterMemento.reset
  match s.Mcomponent.childrenOf with
  | none => none
  | some cs =>
    if cs.isEmpty then
      some { s with MisDone := true, MiterMemento := m }
    else
      ForwardGridIterator.next
        { s with MisDone := false, MiterMemento := m.pushState ⟨cs, 0⟩ }

/-- Embeds `ReverseGridIterator::first`
(src/iterator/reversegriditerator.h): reset, push the reverse state over the
root children, then one full `next()` call. -/
def ReverseGridIterator.first (s : CompositeIteratorState) :
    Option CompositeIteratorState :=
  let m := s.MiterMemento.reset
  match s.Mcomponent.childrenOf with
  | none => none
  | some cs =>
    if cs.isEmpty then
      some { s with MisDone := true, MiterMemento := m }
    else
      ReverseGridIterator.next
        { s with MisDone := false,
                 MiterMemento := m.pushState ⟨cs.reverse, 0⟩ }

/-- Dispatch of the virtual call `first()` through the dynamic strategy
class.  The base-class default (`CompositeIterator::first`, part_015 line
86) signals `OPTIMIZE_illegal`, which is what a `NullIterator` inherits. -/
def CompositeIteratorState.first (fuel : Nat) (s : CompositeIteratorState) :
    Option CompositeIteratorState :=
  match s.kind with
  | .ForwardIter => ForwardIterator.first s
  | .ForwardNodeIter => ForwardNodeIterator.first fuel s
  | .ForwardGridIter => ForwardGridIterator.first s
  | .ReverseIter => ReverseIterator.first s
  | .ReverseNodeIter => ReverseNodeIterator.first fuel s
  | .ReverseGridIter => ReverseGridIterator.first s
  | .NullIter => none

/-- Dispatch of the virtual call `next()` through the dynamic strategy
class; the base-class default signals `OPTIMIZE_illegal`. -/
def CompositeIteratorState.next (s : CompositeIteratorState) :
    Option CompositeIteratorState :=
  match s.kind with
  | .ForwardIter => ForwardIterator.next s
  | .ForwardNodeIter => ForwardNodeIterator.next s
  | .ForwardGridIter => ForwardGridIterator.next s
  | .ReverseIter => ReverseIterator.next s
  | .ReverseNodeIter => ReverseNodeIterator.next s
  | .ReverseGridIter => ReverseGridIterator.next s
  | .NullIter => none

/-- Embeds the `back()` matching loop shared by the node and grid iterator
strategies (e.g. part_010 lines 150-157):
`while (!MisDone && other.currentItem() != currentItem()) { next(); }`,
where the item comparison is C++ pointer inequality, modelled by address
inequality of the referred components. -/
def backMatchLoop
    (step : CompositeIteratorState → Option CompositeIteratorState)
    (otherCur : Option GridComponent) :
    Nat → CompositeIteratorState → Option CompositeIteratorState
  | 0, _ => none
  | fuel + 1, s =>
    if s.MisDone then some s
    else
      match otherCur, s.MiterMemento.currentDeref with
      | some c1, some c2 =>
        if c1.identOf == c2.identOf then some s
        else (step s).bind (backMatchLoop step otherCur fuel)
      | _, _ => none

/-- Embeds `ForwardGridIterator::back` (part_011): `first()`, then a fresh
`ReverseGridIterator` on the same root with a fresh memento of the same
mode (`MiterMemento->create()`), `rev_iter.first()`, then the matching
loop driven by `next()`. -/
def ForwardGridIterator.back (fuel : Nat) (s : CompositeIteratorState) :
    Option CompositeIteratorState :=
  (ForwardGridIterator.first s).bind fun s1 =>
    let rev0 : CompositeIteratorState :=
      ⟨.ReverseGridIter, s1.Mcomponent, false, ⟨s1.MiterMemento.mode, []⟩⟩
    (ReverseGridIterator.first rev0).bind fun rev1 =>
      backMatchLoop ForwardGridIterator.next
        rev1.currentItem fuel s1

/-- Embeds `ForwardNodeIterator::back` (part_010 lines 143-158): as the
grid variant, with a fresh `ReverseNodeIterator` providing the terminal
item. -/
def ForwardNodeIterator.back (fuel : Nat) (s : CompositeIteratorState) :
    Option CompositeIteratorState :=
  (ForwardNodeIterator.first fuel s).bind fun s1 =>
    let rev0 : CompositeIteratorState :=
      ⟨.ReverseNodeIter, s1.Mcomponent, false, ⟨s1.MiterMemento.mode, []⟩⟩
    (ReverseNodeIterator.first fuel rev0).bind fun rev1 =>
      backMatchLoop ForwardNodeIterator.next
        rev1.currentItem fuel s1

/-! ## Driving a traversal

The canonical client loop of the iterator facade, as written in
src/tests/iteratortest.cc: `it.first(); while (!it.isDone())
{ use (*it); it.next(); }`. -/

/-- The collection loop `while (!isDone()) { record currentItem; next(); }`,
with fuel bounding the number of iterations.  `none` marks a traversal that
was still running when the fuel ran out or that hit undefined behaviour. -/
def traverseLoop : Nat → CompositeIteratorState → List GridComponent →
    Option (List GridComponent)
  | 0, _, _ => none
  | fuel + 1, s, acc =>
    if s.isDone then some acc.reverse
    else
      match s.currentItem with
      | none => none
      | some c => (s.next).bind fun s1 => traverseLoop fuel s1 (c :: acc)

/-- A full traversal of the strategy `s`: `first()`, then the collection
loop; returns the visited components in visiting order. -/
def runTraversal (fuel : Nat) (s : CompositeIteratorState) :
    Option (List GridComponent) :=
  (s.first fuel).bind fun s0 => traverseLoop fuel s0 []

/-! ## Parameters and the standard builder (claims C3)

`StandardParameter` (src/parameter.h:105-151) and the node-generation part
of `StandardParameterSpaceBuilder::buildGrid` (src/standardbuilder.h:139-
221). -/

/-- Data members of `StandardParameter` (src/parameter.h:141-149) together
with the parameter name held by the `Parameter` base class. -/
structure StandardParameter : Type where
  id : String
  Mstart : Rat
  Mend : Rat
  Mdelta : Rat
  Munit : String

/-- Embeds `StandardParameter::getSamples` (src/parameter.h:202-206):
`static_cast<unsigned int>(ceil(fabs(Mend - Mstart) / Mdelta) + 1)`. -/
def StandardParameter.getSamples (p : StandardParameter) : Nat :=
  (Int.ceil (|p.Mend - p.Mstart| / p.Mdelta)).toNat + 1

/-- Embeds `StandardParameter::isValid` (src/parameter.h:209-221). -/
def StandardParameter.isValid (p : StandardParameter) : Bool :=
  if p.Mstart == p.Mend then false
  else if ((p.Mstart > 0 && p.Mend > 0) || (p.Mstart < 0 && p.Mend < 0)) &&
      p.Mdelta > |abs p.Mend - abs p.Mstart| then false
  else if p.Mdelta > (|p.Mend| + |p.Mstart|) then false
  else true

/-- Embeds the sample-generation loop of `buildGrid`
(src/standardbuilder.h:174-180): `val = getStart(); for (s < samples)
{ push val; val += getDelta(); }`. -/
def genSamples : Nat → Rat → Rat → List Rat
  | 0, _, _ => []
  | s + 1, val, delta => val :: genSamples s (val + delta) delta

/-- Embeds the carry update of the coordinate odometer
(src/standardbuilder.h:211-219): `for (k = 1; k < size; ++k)
{ ++it[k]; if (it[k] != end) break; it[k] = begin; }`, acting on the
iterator positions of dimensions `1..`; the returned flag is
`components.size() == k`, the exit condition of the outer loop.  The two
lists are traversed in lockstep; a length mismatch cannot arise from
`buildGrid`. -/
def odometerCarry : List Nat → List (List Rat) → List Nat × Bool
  | [], _ => ([], true)
  | _ :: _, [] => ([], true)
  | i :: is, comp :: comps =>
    if i + 1 != comp.length then
      ((i + 1) :: is, false)
    else
      let r := odometerCarry is comps
      (0 :: r.1, r.2)

/-- Embeds one pass of the inner emission loop
(src/standardbuilder.h:197-207): `while (it[0] != components[0].end())
{ emit (**it[k] for every k); ++it[0]; }`: one coordinate row per remaining
value of dimension `0`.  `restVals` are the dereferenced positions of
dimensions `1..`, constant during the pass; each pass starts at
`begin()`, so the whole dimension-`0` list is walked. -/
def odometerEmitPass : List Rat → List Rat → List (List Rat)
  | [], _ => []
  | v :: vs, restVals => (v :: restVals) :: odometerEmitPass vs restVals

/-- Dereferences the iterator positions of dimensions `1..`
(`**cit` in the coordinate assembly, src/standardbuilder.h:200-203); a
position past its container is undefined behaviour (`none`), never reached
from `buildGrid`. -/
def odometerDerefRest : List Nat → List (List Rat) → Option (List Rat)
  | [], [] => some []
  | [], _ :: _ => none
  | _ :: _, [] => none
  | i :: is, comp :: comps =>
    (comp.get? i).bind fun v =>
      (odometerDerefRest is comps).map fun vs => v :: vs

/-- Embeds the outer `while (true)` odometer loop of `buildGrid`
(src/standardbuilder.h:194-220): emit one inner pass over dimension `0`,
reset its iterator, run the carry update, stop when the carry overflows.
The fuel bounds the number of outer passes. -/
def odometerLoop (c0 : List Rat) (crest : List (List Rat)) :
    Nat → List Nat → Option (List (List Rat))
  | 0, _ => none
  | fuel + 1, restIts =>
    (odometerDerefRest restIts crest).bind fun restVals =>
      let rows := odometerEmitPass c0 restVals
      let carry := odometerCarry restIts crest
      if carry.2 then
        some rows
      else
        (odometerLoop c0 crest fuel carry.1).map fun more => rows ++ more

/-- Embeds the node-generation portion of
`StandardParameterSpaceBuilder::buildGrid` (src/standardbuilder.h:139-221):
validate every parameter (`OPTIMIZE_assert((*cit)->isValid(), ...)`,
aborting — `none` — on an invalid one), generate the per-dimension sample
vectors, and run the coordinate odometer with dimension `0` varying
innermost.  Returns the coordinate vectors of the created nodes in creation
order.  The fuel for the outer loop is one more than the product of the
sizes of dimensions `1..`, the exact number of passes the carry permits. -/
def StandardParameterSpaceBuilder.buildGridCoords
    (parameters : List StandardParameter) : Option (List (List Rat)) :=
  if parameters.all (fun p => p.isValid) then
    let components := parameters.map fun p =>
      genSamples p.getSamples p.Mstart p.Mdelta
    match components with
    | [] => none
    | c0 :: crest =>
      odometerLoop c0 crest
        ((crest.map List.length).foldl (fun a b => a * b) 1 + 1)
        (crest.map fun _ => 0)
  else
    none

/-- Assembles the grid the builder produces: an initially empty root `Grid`
(`buildParameterSpace`, src/standardbuilder.h:121-125) to which `buildGrid`
adds one fresh `Node` per coordinate vector in creation order
(`MparameterSpace->add(new Node(coordinates))`, src/standardbuilder.h:205;
`Grid::add` appends each fresh allocation).  Node addresses model the
distinct heap allocations; the root takes address `0`. -/
def StandardParameterSpaceBuilder.buildGrid
    (parameters : List StandardParameter) : Option GridComponent :=
  (StandardParameterSpaceBuilder.buildGridCoords parameters).map fun rows =>
    .grid 0 false ((rows.enumFrom 1).map fun rc => .node rc.1 rc.2 false)

/-! ## The distance utility instantiated at the Iterator facade (claim C6)

`distance` (src/iterator.h:104-128) applied to the `Iterator` facade that
`createIterator` returns.  The facade delegates `first/next/isDone/
currentItem` to its strategy; its equality comparison is modelled from the
spec below.  Method calls of the strategies can hit undefined behaviour, so
the instantiated loops thread `Option`. -/

/-- Modelled from the spec: the `operator!=` of the `Iterator` facade, whose
header is missing from src/.  Spec §4.3: equality of two iterators of the
same strategy and order holds iff their active-frame current-position
markers refer to the same component; the comparison is therefore identity
(address) inequality of the currently referred components. -/
def Iterator.neqIter (a b : CompositeIteratorState) : Bool :=
  (a.currentItem.map GridComponent.identOf) !=
    (b.currentItem.map GridComponent.identOf)

/-- Embeds the first loop of `distance` (src/iterator.h:111-115)
instantiated at the `Iterator` facade. -/
def distanceIterLoop1 :
    Nat → CompositeIteratorState → CompositeIteratorState → Nat →
    Option (Nat × CompositeIteratorState)
  | 0, _, _, _ => none
  | fuel + 1, iter, last, retval =>
    if Iterator.neqIter iter last && !iter.isDone then
      iter.next.bind fun i1 => distanceIterLoop1 fuel i1 last (retval + 1)
    else
      some (retval, iter)

/-- Embeds the second loop of `distance` (src/iterator.h:121-125)
instantiated at the `Iterator` facade. -/
def distanceIterLoop2 :
    Nat → CompositeIteratorState → CompositeIteratorState → Nat →
    Option (Nat × CompositeIteratorState)
  | 0, _, _, _ => none
  | fuel + 1, iter, last, retval =>
    if Iterator.neqIter iter last then
      iter.next.bind fun i1 => distanceIterLoop2 fuel i1 last (retval + 1)
    else
      some (retval, iter)

/-- Embeds `distance` (src/iterator.h:104-128) instantiated at the
`Iterator` facade, with the two-pass fallback rewinding via `first()`. -/
def distanceIter (fuel : Nat) (iter_first iter_last : CompositeIteratorState) :
    Option (Nat × CompositeIteratorState) :=
  (distanceIterLoop1 fuel iter_first iter_last 0).bind fun ri =>
    if Iterator.neqIter ri.2 iter_last then
      (ri.2.first fuel).bind fun f => distanceIterLoop2 fuel f iter_last 0
    else
      some ri

/-! ## Component counting helpers -/

mutual

/-- Number of composite (`Grid`) components in a component subtree, the
component itself included. -/
def countGridsComp : GridComponent → Nat
  | .node _ _ _ => 0
  | .grid _ _ cs => 1 + countGridsIn cs

/-- Number of composite (`Grid`) components within a component list,
descendants included. -/
def countGridsIn : List GridComponent → Nat
  | [] => 0
  | c :: rest => countGridsComp c + countGridsIn rest

end

/-- Number of composite (`Grid`) components strictly below a root. -/
def countGridsBelow : GridComponent → Nat
  | .node _ _ _ => 0
  | .grid _ _ cs => countGridsIn cs

mutual

/-- Number of leaf (`Node`) components in a component subtree, the component
itself included. -/
def countNodesComp : GridComponent → Nat
  | .node _ _ _ => 1
  | .grid _ _ cs => countNodesIn cs

/-- Number of leaf (`Node`) components within a component list, descendants
included. -/
def countNodesIn : List GridComponent → Nat
  | [] => 0
  | c :: rest => countNodesComp c + countNodesIn rest

end

/-! ## Concrete trees used by the claim instances -/

/-- A leaf with address 2. -/
def exNode : GridComponent := .node 2 [] false

/-- A subgrid with address 1 holding the single leaf. -/
def exSubgrid : GridComponent := .grid 1 false [exNode]

/-- A non-empty nested tree: the root grid holds one subgrid which holds one
leaf. -/
def exNestedRoot : GridComponent := .grid 0 false [exSubgrid]

/-- The iterator state reached by the forward-all post-order iterator of
`exNestedRoot` after `first()` and `n` subsequent `next()` calls: the root
state sits at the back of the deque, still referring to the subgrid, and
each `next()` has push_fronted one more state over the subgrid children. -/
def exPostState (n : Nat) : CompositeIteratorState :=
  ⟨.ForwardIter, exNestedRoot, false,
    ⟨.PostOrder, ⟨[exSubgrid], 0⟩ :: List.replicate n ⟨[exNode], 0⟩⟩⟩

/-- First parameter of the claimed scenario: range [0,1] with step 0.5, as
constructed in src/tests/iteratortest.cc
(`StandardParameter("param1", 0, 1., 0.5)`). -/
def param1 : StandardParameter := ⟨"param1", 0, 1, 1/2, ""⟩

/-- Second parameter of the claimed scenario: range [-1,1] with step 1
(`StandardParameter("param2", -1, 1., 1.)`). -/
def param2 : StandardParameter := ⟨"param2", -1, 1, 1, ""⟩

/-- The coordinate sequence the claim asserts for the forward-leaves-only
post-order traversal of the two-parameter grid. -/
def claimedCoordOrder : List (List Rat) :=
  [[0, -1], [0, 0], [0, 1],
   [1/2, -1], [1/2, 0], [1/2, 1],
   [1, -1], [1, 0], [1, 1]]

/-- The coordinate sequence the built grid and its traversal actually
produce: the builder odometer varies the FIRST parameter fastest
(src/standardbuilder.h:197-207 advances `iterators[0]` in the inner loop),
and the flat traversal follows insertion order. -/
def actualCoordOrder : List (List Rat) :=
  [[0, -1], [1/2, -1], [1, -1],
   [0, 0], [1/2, 0], [1, 0],
   [0, 1], [1/2, 1], [1, 1]]

/-- The coordinate vectors reported by a forward-leaves-only post-order
traversal of the grid built from the two parameters, read off the visited
nodes via `getCoordinates()`. -/
def traversalCoords : Option (List (List Rat)) :=
  (StandardParameterSpaceBuilder.buildGrid [param1, param2]).bind fun g =>
    (runTraversal 30
        (IteratorStrategyFactory.makeIteratorStrategy
          .ForwardNodeIter .PostOrder g)).map
      (List.map fun c => c.getCoordinates.getD [])

/-- Nested tree for the grids-only distance scenario: a root grid holding a
grid which holds a grid which holds a node. -/
def deepTree : GridComponent :=
  .grid 0 false [.grid 1 false [.grid 2 false [.node 3 [] false]]]

/-- The value of `distance(it.first(), it.back())` for the forward
grids-only post-order iterator over `deepTree`: one iterator positioned by
`first()`, one by `back()`, and the `distance` utility of src/iterator.h
applied to them. -/
def deepTreeGridDistance : Option Nat :=
  (do
    let it := IteratorStrategyFactory.makeIteratorStrategy
      .ForwardGridIter .PostOrder deepTree
    let a ← ForwardGridIterator.first it
    let b ← ForwardGridIterator.back 30 it
    let r ← distanceIter 30 a b
    pure r.1 : Option Nat)

/-- A minimal concrete composite-iterator instance over `Nat` used to
witness the `distance` theorems: `next` increments, `first` rewinds to 0,
the iteration is done from position 5 on, and inequality is numeric. -/
def counterOps : CompositeIteratorOps Nat where
  next := fun n => n + 1
  first := fun _ => 0
  isDone := fun n => decide (5 ≤ n)
  neq := fun a b => a != b

/-! ## Helper lemmas for the distance loops -/

/-- When the loop condition of the first `distance` loop holds for the first
`k` states and fails at the `k`-th successor, the loop returns the start
count plus `k` together with the `k`-times advanced iterator. -/
theorem distanceLoop1_runs (ops : CompositeIteratorOps α) :
    ∀ (k fuel : Nat) (s t : α) (acc : Nat),
    (∀ i < k, ops.neq (ops.next^[i] s) t = true ∧
      ops.isDone (ops.next^[i] s) = false) →
    (ops.neq (ops.next^[k] s) t = false ∨
      ops.isDone (ops.next^[k] s) = true) →
    k < fuel →
    distanceLoop1 ops fuel s t acc = some (acc + k, ops.next^[k] s) := by
  intro k
  induction k with
  | zero =>
    intro fuel s t acc _ hstop hfuel
    match fuel, hfuel with
    | fuel + 1, _ =>
      simp only [Function.iterate_zero, id_eq] at hstop
      rcases hstop with h | h <;>
        simp [distanceLoop1, h]
  | succ k ih =>
    intro fuel s t acc hrun hstop hfuel
    match fuel, hfuel with
    | fuel + 1, hfuel =>
      have h0 := hrun 0 (Nat.succ_pos k)
      simp only [Function.iterate_zero, id_eq] at h0
      have hcond : ops.neq s t && !ops.isDone s = true := by
        simp [h0.1, h0.2]
      have hrun1 : ∀ i < k, ops.neq (ops.next^[i] (ops.next s)) t = true ∧
          ops.isDone (ops.next^[i] (ops.next s)) = false := by
        intro i hi
        have := hrun (i + 1) (Nat.succ_lt_succ hi)
        simpa [Function.iterate_succ_apply] using this
      have hstop1 : ops.neq (ops.next^[k] (ops.next s)) t = false ∨
          ops.isDone (ops.next^[k] (ops.next s)) = true := by
        simpa [Function.iterate_succ_apply] using hstop
      have hmain := ih fuel (ops.next s) t (acc + 1) hrun1 hstop1
        (Nat.lt_of_succ_lt_succ hfuel)
      calc distanceLoop1 ops (fuel + 1) s t acc
          = distanceLoop1 ops fuel (ops.next s) t (acc + 1) := by
            simp [distanceLoop1, h0.1, h0.2]
        _ = some (acc + 1 + k, ops.next^[k] (ops.next s)) := hmain
        _ = some (acc + (k + 1), ops.next^[k + 1] s) := by
            simp only [Function.iterate_succ_apply, Option.some.injEq,
              Prod.mk.injEq]
            exact ⟨by omega, trivial⟩

/-- When the loop condition of the second `distance` loop holds for the
first `j` states and fails at the `j`-th successor, the loop returns the
start count plus `j` together with the `j`-times advanced iterator. -/
theorem distanceLoop2_runs (ops : CompositeIteratorOps α) :
    ∀ (j fuel : Nat) (s t : α) (acc : Nat),
    (∀ i < j, ops.neq (ops.next^[i] s) t = true) →
    ops.neq (ops.next^[j] s) t = false →
    j < fuel →
    distanceLoop2 ops fuel s t acc = some (acc + j, ops.next^[j] s) := by
  intro j
  induction j with
  | zero =>
    intro fuel s t acc _ hstop hfuel
    match fuel, hfuel with
    | fuel + 1, _ =>
      simp only [Function.iterate_zero, id_eq] at hstop
      simp [distanceLoop2, hstop]
  | succ j ih =>
    intro fuel s t acc hrun hstop hfuel
    match fuel, hfuel with
    | fuel + 1, hfuel =>
      have h0 := hrun 0 (Nat.succ_pos j)
      simp only [Function.iterate_zero, id_eq] at h0
      have hrun1 : ∀ i < j, ops.neq (ops.next^[i] (ops.next s)) t = true := by
        intro i hi
        have := hrun (i + 1) (Nat.succ_lt_succ hi)
        simpa [Function.iterate_succ_apply] using this
      have hstop1 : ops.neq (ops.next^[j] (ops.next s)) t = false := by
        simpa [Function.iterate_succ_apply] using hstop
      have hmain := ih fuel (ops.next s) t (acc + 1) hrun1 hstop1
        (Nat.lt_of_succ_lt_succ hfuel)
      calc distanceLoop2 ops (fuel + 1) s t acc
          = distanceLoop2 ops fuel (ops.next s) t (acc + 1) := by
            simp [distanceLoop2, h0]
        _ = some (acc + 1 + j, ops.next^[j] (ops.next s)) := hmain
        _ = some (acc + (j + 1), ops.next^[j + 1] s) := by
            simp only [Function.iterate_succ_apply, Option.some.injEq,
              Prod.mk.injEq]
            exact ⟨by omega, trivial⟩

/-! ## Claim theorems -/

/-- C2: evaluation of `Grid::setComputed` at the failing input.  The claim
states that after `setComputed()` the computed flag of a grid is true only
if all children are computed, and in particular false when a child reports
`isComputed() == false`.  The code instead leaves the flag `true` for a grid
whose single child is an uncomputed node, because the scan result is
overwritten by the unconditional `Tbase::Mcomputed = true` at grid.h:249:
the scan of the child list yields `false`, yet `setComputed` returns `true`
and `isComputed()` then reports `true`. -/
theorem C2_setComputed_overwrites_scan :
    setComputedScan [.node 1 [] false] false = false ∧
    Grid.setComputed [.node 1 [] false] false = true ∧
    (GridComponent.node 1 [] false).isComputed = false := by
  exact ⟨rfl, rfl, rfl⟩

/-- C7: when `GridSearch::execute(v)` runs with a non-zero worker count it
does not return until every enqueued leaf's visitor call has completed.
The spin of gridsearch.h:179 guarantees that every enqueued task has been
popped (the popped-task counter equals the submitted count), and the
`delete pool` of gridsearch.h:181 joins every worker, which forces every
popped task's visitor call to have returned; in any state satisfying both,
the number of finished visitor calls equals the number of enqueued
leaves. -/
theorem C7_execute_waits_for_completion (numTasks : Nat) (st : PoolState)
    (h : executeReturns numTasks st) :
    allVisitorCallsCompleted numTasks st := by
  rcases h with ⟨hspin, hjoin⟩
  simp only [executeSpinExits, PoolState.numPopped] at hspin
  simp only [destructorJoinComplete] at hjoin
  simp only [allVisitorCallsCompleted]
  omega

/-- Witness for C7 at a concrete state: one enqueued task, popped and
finished, with both return conditions discharged. -/
theorem C7_execute_waits_for_completion_witness :
    executeReturns 1 ⟨0, 0, 1⟩ ∧ allVisitorCallsCompleted 1 ⟨0, 0, 1⟩ :=
  ⟨⟨rfl, rfl⟩, C7_execute_waits_for_completion 1 ⟨0, 0, 1⟩ ⟨rfl, rfl⟩⟩

/-- C8: `Grid::add` is a no-op when the component is already among the
children (pointer identity); otherwise it appends the component at the end
of the child list, sets the parent of the component to the grid, and
invalidates the grid computed flag. -/
theorem C8_add_spec (g : GridObj) (c : ComponentObj) :
    (g.Mchildren.any (fun x => x.addr == c.addr) = true →
      Grid.add g c = (g, c)) ∧
    (g.Mchildren.any (fun x => x.addr == c.addr) = false →
      (Grid.add g c).1.Mchildren =
        g.Mchildren ++ [{ c with Mparent := some g.self.addr }] ∧
      (Grid.add g c).2 = { c with Mparent := some g.self.addr } ∧
      (Grid.add g c).1.self.Mcomputed = false ∧
      (Grid.add g c).1.self.addr = g.self.addr) := by
  constructor
  · intro h
    simp [Grid.add, h]
  · intro h
    simp [Grid.add, h]

/-- Witness for C8 at concrete inputs: an absent component is appended with
its parent set and the cache invalidated; a present component leaves both
objects unchanged. -/
theorem C8_add_spec_witness :
    ((GridObj.mk ⟨5, none, true⟩ []).Mchildren.any
        (fun x => x.addr == (7 : Nat)) = false →
      (Grid.add ⟨⟨5, none, true⟩, []⟩ ⟨7, none, false⟩).1.Mchildren =
        [] ++ [{ ComponentObj.mk 7 none false with Mparent := some 5 }] ∧
      (Grid.add ⟨⟨5, none, true⟩, []⟩ ⟨7, none, false⟩).2 =
        { ComponentObj.mk 7 none false with Mparent := some 5 } ∧
      (Grid.add ⟨⟨5, none, true⟩, []⟩ ⟨7, none, false⟩).1.self.Mcomputed =
        false ∧
      (Grid.add ⟨⟨5, none, true⟩, []⟩ ⟨7, none, false⟩).1.self.addr = 5) ∧
    ((GridObj.mk ⟨5, none, true⟩ [⟨7, some 5, false⟩]).Mchildren.any
        (fun x => x.addr == (7 : Nat)) = true →
      Grid.add ⟨⟨5, none, true⟩, [⟨7, some 5, false⟩]⟩ ⟨7, some 5, false⟩ =
        (⟨⟨5, none, true⟩, [⟨7, some 5, false⟩]⟩, ⟨7, some 5, false⟩)) := by
  exact ⟨(C8_add_spec ⟨⟨5, none, true⟩, []⟩ ⟨7, none, false⟩).2,
         fun _ => (C8_add_spec ⟨⟨5, none, true⟩, [⟨7, some 5, false⟩]⟩
           ⟨7, some 5, false⟩).1 (by decide)⟩

/-- C4: `makeIteratorStrategy` called with an iterator type not matching any
of the six recognised traversal strategies never aborts and never yields a
null strategy: the final else branch yields a `NullIterator` whose
`isDone()` is immediately `true` and whose `currentItem()` is the
originating root component, for every component and every iteration mode. -/
theorem C4_factory_default_null (t : EiteratorType) (m : EiterationMode)
    (c : GridComponent)
    (h1 : t ≠ .ForwardIter) (h2 : t ≠ .ForwardNodeIter)
    (h3 : t ≠ .ForwardGridIter) (h4 : t ≠ .ReverseIter)
    (h5 : t ≠ .ReverseNodeIter) (h6 : t ≠ .ReverseGridIter) :
    (IteratorStrategyFactory.makeIteratorStrategy t m c).kind = .NullIter ∧
    (IteratorStrategyFactory.makeIteratorStrategy t m c).isDone = true ∧
    (IteratorStrategyFactory.makeIteratorStrategy t m c).currentItem =
      some c := by
  cases t with
  | ForwardIter => exact absurd rfl h1
  | ForwardNodeIter => exact absurd rfl h2
  | ForwardGridIter => exact absurd rfl h3
  | ReverseIter => exact absurd rfl h4
  | ReverseNodeIter => exact absurd rfl h5
  | ReverseGridIter => exact absurd rfl h6
  | NullIter => exact ⟨rfl, rfl, rfl⟩

/-- Witness for C4 at a concrete component and mode. -/
theorem C4_factory_default_null_witness :
    (IteratorStrategyFactory.makeIteratorStrategy .NullIter .PostOrder
      (.node 3 [] false)).kind = .NullIter ∧
    (IteratorStrategyFactory.makeIteratorStrategy .NullIter .PostOrder
      (.node 3 [] false)).isDone = true ∧
    (IteratorStrategyFactory.makeIteratorStrategy .NullIter .PostOrder
      (.node 3 [] false)).currentItem = some (.node 3 [] false) := by
  exact C4_factory_default_null .NullIter .PostOrder (.node 3 [] false)
    (by decide) (by decide) (by decide) (by decide) (by decide) (by decide)

/-- C5: behaviour of the `distance` utility (src/iterator.h:104-128).
First part: when `iter_last` is reachable from the current position of
`iter_first` in `k` forward `next()` steps — with the two iterators unequal
and `iter_first` not done before each of those steps — `distance` returns
`k` (with `iter_first` advanced to the meeting position).  Second part: when
`iter_first` becomes done after `m` steps without having met `iter_last`,
the implementation does not fail but rewinds `iter_first` via `first()` and
recounts from the start, returning the recounted `j`. -/
theorem C5_distance_two_pass (ops : CompositeIteratorOps α)
    (fuel k m j : Nat) (s t : α) :
    ((∀ i < k, ops.neq (ops.next^[i] s) t = true ∧
        ops.isDone (ops.next^[i] s) = false) →
      ops.neq (ops.next^[k] s) t = false →
      k < fuel →
      distance ops fuel s t = some (k, ops.next^[k] s)) ∧
    ((∀ i < m, ops.neq (ops.next^[i] s) t = true ∧
        ops.isDone (ops.next^[i] s) = false) →
      ops.neq (ops.next^[m] s) t = true →
      ops.isDone (ops.next^[m] s) = true →
      (∀ i < j, ops.neq (ops.next^[i] (ops.first (ops.next^[m] s))) t =
        true) →
      ops.neq (ops.next^[j] (ops.first (ops.next^[m] s))) t = false →
      m < fuel → j < fuel →
      distance ops fuel s t =
        some (j, ops.next^[j] (ops.first (ops.next^[m] s)))) := by
  constructor
  · intro hrun hstop hfuel
    have h1 := distanceLoop1_runs ops k fuel s t 0 hrun (Or.inl hstop) hfuel
    simp [distance, h1, hstop]
  · intro hrun hneq hdone hrun2 hstop2 hmf hjf
    have h1 := distanceLoop1_runs ops m fuel s t 0 hrun (Or.inr hdone) hmf
    have h2 := distanceLoop2_runs ops j fuel
      (ops.first (ops.next^[m] s)) t 0 hrun2 hstop2 hjf
    simp [distance, h1, hneq, h2]

/-- Witness for C5 on the counter iterator: forward reach in three steps,
and the two-pass fallback after running done. -/
theorem C5_distance_two_pass_witness :
    distance counterOps 10 0 3 = some (3, counterOps.next^[3] 0) ∧
    distance counterOps 10 2 1 =
      some (1, counterOps.next^[1]
        (counterOps.first (counterOps.next^[3] 2))) := by
  exact ⟨(C5_distance_two_pass counterOps 10 3 0 0 0 3).1
      (by decide) (by decide) (by decide),
    (C5_distance_two_pass counterOps 10 0 3 1 2 1).2
      (by decide) (by decide) (by decide) (by decide) (by decide)
      (by decide) (by decide)⟩

/-- C9: `distance` mutates its first argument: the C++ parameter is taken
by reference and aliased (`CcompositeIterator& iter(iter_first)`), so the
counting advances `iter_first` in place and no copy is made; the embedding
returns that final state, which under the reachability hypotheses is the
`k`-times advanced iterator and — whenever stepping moved it at all — is no
longer the original position. -/
theorem C9_distance_mutates_first (ops : CompositeIteratorOps α)
    (fuel k : Nat) (s t : α)
    (hrun : ∀ i < k, ops.neq (ops.next^[i] s) t = true ∧
      ops.isDone (ops.next^[i] s) = false)
    (hstop : ops.neq (ops.next^[k] s) t = false)
    (hfuel : k < fuel)
    (hmoved : ops.next^[k] s ≠ s) :
    ∃ r, distance ops fuel s t = some r ∧
      r.2 = ops.next^[k] s ∧ r.2 ≠ s := by
  refine ⟨(k, ops.next^[k] s), ?_, rfl, hmoved⟩
  have h1 := distanceLoop1_runs ops k fuel s t 0 hrun (Or.inl hstop) hfuel
  simp [distance, h1, hstop]

/-- Witness for C9 on the counter iterator. -/
theorem C9_distance_mutates_first_witness :
    ∃ r, distance counterOps 10 0 3 = some r ∧
      r.2 = counterOps.next^[3] 0 ∧ r.2 ≠ 0 := by
  exact C9_distance_mutates_first counterOps 10 3 0 3
    (by decide) (by decide) (by decide) (by decide)

/-- One forward-all post-order `next()` step from the iterator state whose
back deque entry still refers to the subgrid of `exNestedRoot`: the probe on
the subgrid reports an unfinished traversal, so a fresh state over the
subgrid children is push_fronted — the far end of the modelled deque — and
the current position does not move. -/
theorem exPost_next_general (l : List IterationState) :
    ForwardIterator.next
      ⟨.ForwardIter, exNestedRoot, false,
        ⟨.PostOrder, ⟨[exSubgrid], 0⟩ :: l⟩⟩ =
    some ⟨.ForwardIter, exNestedRoot, false,
      ⟨.PostOrder, (⟨[exSubgrid], 0⟩ :: l) ++ [⟨[exNode], 0⟩]⟩⟩ := rfl

/-- The forward-all post-order iterator of `exNestedRoot` maps the state
after `n` steps to the state after `n + 1` steps. -/
theorem exPost_next (n : Nat) :
    ForwardIterator.next (exPostState n) = some (exPostState (n + 1)) := by
  have hl : List.replicate n (⟨[exNode], 0⟩ : IterationState) ++
        [(⟨[exNode], 0⟩ : IterationState)] =
      List.replicate (n + 1) (⟨[exNode], 0⟩ : IterationState) :=
    (List.replicate_succ' _ _).symm
  calc ForwardIterator.next (exPostState n)
      = some ⟨.ForwardIter, exNestedRoot, false,
          ⟨.PostOrder, (⟨[exSubgrid], 0⟩ : IterationState) ::
            (List.replicate n (⟨[exNode], 0⟩ : IterationState) ++
              [(⟨[exNode], 0⟩ : IterationState)])⟩⟩ :=
        exPost_next_general (List.replicate n ⟨[exNode], 0⟩)
    _ = some (exPostState (n + 1)) := by rw [hl]; rfl

/-- The collection loop over the forward-all post-order iterator of
`exNestedRoot` exhausts any fuel without ever finishing: from every reached
state the iterator is not done and stays on the subgrid. -/
theorem exPost_loop_none (fuel : Nat) :
    ∀ (n : Nat) (acc : List GridComponent),
    traverseLoop fuel (exPostState n) acc = none := by
  induction fuel with
  | zero => intro n acc; rfl
  | succ fuel ih =>
    intro n acc
    calc traverseLoop (fuel + 1) (exPostState n) acc
        = (ForwardIterator.next (exPostState n)).bind
            (fun s1 => traverseLoop fuel s1 (exSubgrid :: acc)) := rfl
      _ = traverseLoop fuel (exPostState (n + 1)) (exSubgrid :: acc) := by
          rw [exPost_next n]; rfl
      _ = none := ih (n + 1) _

/-- C1: the claim asserts that on every non-empty grid tree a full
forward-all post-order traversal (first, then next until isDone) visits
every Node exactly once and every Grid exactly once, each Grid after all of
its descendants.  On the nested tree `exNestedRoot` — a root grid holding a
subgrid holding a node — the traversal never completes at all: for every
fuel bound the first-then-next loop is still running, because the post-order
memento push_fronts the descent frame while all other operations act on the
deque back, so every `next()` re-probes the subgrid and pushes another frame
without ever advancing.  The subgrid is reported over and over (never after
its descendant, which is never reached), refuting the claim on the code. -/
theorem C1_postorder_never_completes (fuel : Nat) :
    runTraversal fuel (IteratorStrategyFactory.makeIteratorStrategy
      .ForwardIter .PostOrder exNestedRoot) = none := by
  calc runTraversal fuel (IteratorStrategyFactory.makeIteratorStrategy
        .ForwardIter .PostOrder exNestedRoot)
      = traverseLoop fuel (exPostState 0) [] := rfl
    _ = none := exPost_loop_none fuel 0 []

/-- C10: for every traversal strategy kind (forward, reverse, leaves-only
and grids-only variants alike) and both iteration modes, an iterator
created on a grid whose child collection is empty becomes done immediately
upon `first()`, and the traversal reports no items. -/
theorem C10_first_empty_done (t : EiteratorType) (m : EiterationMode)
    (i fuel : Nat) (h : t ≠ .NullIter) :
    ∃ s1, (IteratorStrategyFactory.makeIteratorStrategy t m
        (.grid i false [])).first fuel = some s1 ∧
      s1.isDone = true ∧
      runTraversal (fuel + 1) (IteratorStrategyFactory.makeIteratorStrategy
        t m (.grid i false [])) = some [] := by
  cases t with
  | NullIter => exact absurd rfl h
  | ForwardIter => exact ⟨_, rfl, rfl, rfl⟩
  | ForwardNodeIter => exact ⟨_, rfl, rfl, rfl⟩
  | ForwardGridIter => exact ⟨_, rfl, rfl, rfl⟩
  | ReverseIter => exact ⟨_, rfl, rfl, rfl⟩
  | ReverseNodeIter => exact ⟨_, rfl, rfl, rfl⟩
  | ReverseGridIter => exact ⟨_, rfl, rfl, rfl⟩

/-- Witness for C10 at a concrete kind, mode, address and fuel. -/
theorem C10_first_empty_done_witness :
    ∃ s1, (IteratorStrategyFactory.makeIteratorStrategy .ForwardNodeIter
        .PostOrder (.grid 0 false [])).first 0 = some s1 ∧
      s1.isDone = true ∧
      runTraversal 1 (IteratorStrategyFactory.makeIteratorStrategy
        .ForwardNodeIter .PostOrder (.grid 0 false [])) = some [] := by
  exact C10_first_empty_done .ForwardNodeIter .PostOrder 0 0 (by decide)

/-- C3 counterexample: the claim asserts that the forward-leaves-only
post-order traversal of the grid built from the ranges [0,1] step 0.5 and
[-1,1] step 1 enumerates the coordinate pairs
(0,-1),(0,0),(0,1),(0.5,-1),(0.5,0),(0.5,1),(1,-1),(1,0),(1,1); the
traversal of the embedded build actually yields a different sequence. -/
theorem C3_claimed_order_wrong :
    traversalCoords ≠ some claimedCoordOrder := by
  with_unfolding_all decide

/-- C3 amended: building the grid from the ranges [0,1] step 0.5 and
[-1,1] step 1 produces exactly 9 leaf Nodes, and the forward-leaves-only
post-order traversal started with `first()` enumerates their coordinate
pairs with the FIRST parameter varying fastest:
(0,-1),(0.5,-1),(1,-1),(0,0),(0.5,0),(1,0),(0,1),(0.5,1),(1,1). -/
theorem C3_nine_leaves_first_param_fastest :
    traversalCoords = some actualCoordOrder ∧
    ((StandardParameterSpaceBuilder.buildGrid [param1, param2]).bind
      GridComponent.childrenOf).map countNodesIn = some 9 ∧
    ((StandardParameterSpaceBuilder.buildGrid [param1, param2]).bind
      GridComponent.childrenOf).map
        (fun cs => cs.all GridComponent.isLeaf) = some true := by
  refine ⟨by with_unfolding_all decide, by with_unfolding_all decide,
    by with_unfolding_all decide⟩

/-- C6: the claim asserts that for every kind and order, the distance
between an iterator positioned by `first()` and one positioned by `back()`
equals the number of qualifying components minus one.  For the forward
grids-only post-order iterator over the nested `deepTree` the distance is 0,
while the tree holds 2 qualifying grids below the root (3 counting the
root), so the claimed value is at least 1: after `first()` the iterator
already sits on the outermost subgrid and `back()` does not move past it,
because the broken post-order descent never reaches the inner grid. -/
theorem C6_grid_distance_not_count_minus_one :
    deepTreeGridDistance = some 0 ∧
    countGridsBelow deepTree = 2 ∧
    (0 : Nat) ≠ 2 - 1 := by
  refine ⟨by with_unfolding_all decide, by decide, by decide⟩

end optimize
